import Mathlib

/-!
Verification of the request-dispatch core of a Google-Maps-style HTTP API
client (files `client.py`, `exception.py`, `geocoding.py`).

The Python source is shallowly embedded:

* the exception classes of `exception.py` (plus the Python built-in
  exceptions the core raises) become the inductive type `PyExc`, and each
  `isinstance` test used by the code becomes a Boolean predicate that follows
  the Python class hierarchy;
* pure helpers (`sign_hmac`, `urlencode_params`, `_generate_auth_url`,
  `_get_body`) become Lean functions over strings, association lists and
  byte lists (bytes are `Nat` values `< 256`, 32-bit words are `Nat` reduced
  `% 2 ^ 32`); the library routines they call (`hashlib.sha1`, `hmac`,
  `base64`, `urllib.urlencode`, `requests.utils.unquote_unreserved`) are
  implemented from their standard definitions;
* the effectful retry loop `Client._request` becomes a function from an
  environment (one `AttemptEnv` per loop iteration, carrying the wall-clock
  readings, the random jitter draw and the transport outcome of that
  iteration) to an `Option RunResult`: the ordered list of observable events
  (sleeps, URL build, network send, rate-limit check, window append), the
  final result and the final sliding window.  `none` means the supplied
  environment was too short to drive the loop to termination.
  Time is modelled by the rational-valued clock readings recorded in the
  environment; `requests_kwargs` merging, the GET/POST selection and the
  `extract_body` override are not modelled (no claim depends on them).
-/

namespace Gmaps

/-! ## Exceptions (`exception.py` plus Python built-ins raised by the core) -/

/-- Exceptions the core can raise.  `apiError`, `overQueryLimit`,
`transportError`, `httpError`, `timeout` come from `exception.py`;
`valueError`, `jsonDecodeError`, `keyError`, `encodingError`,
`binasciiError` are the Python built-in (or stdlib) exceptions raised by
`_generate_auth_url`, `response.json()`, `body["status"]`,
`str.encode("ascii")` and `base64.urlsafe_b64decode`. -/
inductive PyExc where
  | apiError (status : String) (message : Option String)
  | overQueryLimit (status : String) (message : Option String)
  | transportError
  | httpError (status_code : Nat)
  | timeout
  | valueError (msg : String)
  | jsonDecodeError
  | keyError (missing : String)
  | encodingError
  | binasciiError
deriving DecidableEq

/-- Python `isinstance(e, ApiError)`: `_OverQueryLimit` subclasses `ApiError`. -/
def isApiError : PyExc → Bool
  | .apiError _ _ => true
  | .overQueryLimit _ _ => true
  | _ => false

/-- Python `isinstance(e, TransportError)`: `HTTPError` subclasses
`TransportError` in `exception.py`. -/
def isTransportErrorExc : PyExc → Bool
  | .transportError => true
  | .httpError _ => true
  | _ => false

/-- Python `isinstance(e, HTTPError)`. -/
def isHTTPErrorExc : PyExc → Bool
  | .httpError _ => true
  | _ => false

/-- Python `isinstance(e, _RetriableRequest)`: `_OverQueryLimit` is the only
subclass of the `_RetriableRequest` marker in `exception.py`. -/
def isRetriableRequestExc : PyExc → Bool
  | .overQueryLimit _ _ => true
  | _ => false

/-- Python `isinstance(e, _OverQueryLimit)`. -/
def isOverQueryLimitExc : PyExc → Bool
  | .overQueryLimit _ _ => true
  | _ => false

/-- The spec groups "body is not valid JSON" (`json.JSONDecodeError`) and
"body lacks the `status` field" (`KeyError`) as ParseError. -/
def isParseError : PyExc → Bool
  | .jsonDecodeError => true
  | .keyError _ => true
  | _ => false

/-- Boolean test that an `Except` is a success. -/
def isOkE {ε α : Type} : Except ε α → Bool
  | .ok _ => true
  | .error _ => false

theorem isOkE_iff {ε α : Type} (x : Except ε α) : isOkE x = true ↔ ∃ a, x = .ok a := by
  cases x <;> simp [isOkE]

/-! ## Parameter lists and Python `dict` operations -/

/-- URL parameters: ordered key/value pairs (values already in string form;
in the Python-3 code path `normalize_for_urlencode` is the identity). -/
abbrev ParamList := List (String × String)

/-- Python `d.get(k)` / `d[k]` on a dict modelled as an association list. -/
def lookupParam (l : ParamList) (k : String) : Option String :=
  (l.find? (fun kv => kv.1 == k)).map (fun kv => kv.2)

/-- Python truthiness of an optional string: `None` and `""` are falsy. -/
def truthy : Option String → Bool
  | none => false
  | some s => !(s == (""))

/-- Python `dict(d, **p)`: entries of `d` with values overridden by `p`,
followed by the entries of `p` whose keys are absent from `d` (order of the
result is irrelevant here because the caller sorts it). -/
def dictMerge (d p : ParamList) : ParamList :=
  d.map (fun kv => (kv.1, (lookupParam p kv.1).getD kv.2)) ++
    p.filter (fun kv => (lookupParam d kv.1).isNone)

/-- Python string comparison on character lists: lexicographic by code
point. -/
def charListLe : List Char → List Char → Bool
  | [], _ => true
  | _ :: _, [] => false
  | a :: as, b :: bs => a.toNat < b.toNat || (a.toNat == b.toNat && charListLe as bs)

/-- Python `<=` on strings: lexicographic by code point. -/
def pyStrLe (a b : String) : Bool :=
  charListLe a.data b.data

/-- Key order on parameter pairs, as used by Python `sorted` (with the
unique keys produced by `dict.items()` comparing keys only coincides with
Python's tuple comparison). -/
def pairLe (a b : String × String) : Prop :=
  pyStrLe a.1 b.1 = true

instance : DecidableRel pairLe := fun a b => instDecidableEqBool (pyStrLe a.1 b.1) true

theorem charListLe_total (a b : List Char) :
    charListLe a b = true ∨ charListLe b a = true := by
  induction a generalizing b with
  | nil => left; rfl
  | cons x xs ih =>
    cases b with
    | nil => right; rfl
    | cons y ys =>
      by_cases h : x.toNat < y.toNat
      · left; simp [charListLe, h]
      · by_cases h2 : y.toNat < x.toNat
        · right; simp [charListLe, h2]
        · have hxy : x.toNat = y.toNat :=
            Nat.le_antisymm (Nat.not_lt.mp h2) (Nat.not_lt.mp h)
          rcases ih ys with h3 | h3
          · left; simp [charListLe, hxy, h3]
          · right; simp [charListLe, hxy.symm, h3]

theorem charListLe_trans {a b c : List Char} (h1 : charListLe a b = true)
    (h2 : charListLe b c = true) : charListLe a c = true := by
  induction a generalizing b c with
  | nil => rfl
  | cons x xs ih =>
    cases b with
    | nil => simp [charListLe] at h1
    | cons y ys =>
      cases c with
      | nil => simp [charListLe] at h2
      | cons z zs =>
        simp only [charListLe, Bool.or_eq_true, Bool.and_eq_true, beq_iff_eq,
          decide_eq_true_eq] at h1 h2 ⊢
        rcases h1 with h1 | ⟨hxy, h1⟩ <;> rcases h2 with h2 | ⟨hyz, h2⟩
        · exact Or.inl (Nat.lt_trans h1 h2)
        · exact Or.inl (hyz ▸ h1)
        · exact Or.inl (hxy ▸ h2)
        · exact Or.inr ⟨hxy.trans hyz, ih h1 h2⟩

instance : IsTotal (String × String) pairLe :=
  ⟨fun a b => charListLe_total a.1.data b.1.data⟩

instance : IsTrans (String × String) pairLe :=
  ⟨fun _ _ _ h1 h2 => charListLe_trans h1 h2⟩

/-- Python `sorted` on key/value pairs: a stable sort by key order. -/
def sortPairs (l : ParamList) : ParamList :=
  List.insertionSort pairLe l

/-- The `params` argument of `_generate_auth_url`: a Python dict or a list
of key/value tuples (`type(params) is dict` chooses the branch). -/
inductive Params where
  | dict (entries : ParamList)
  | list (entries : ParamList)
deriving DecidableEq

/-! ## `urlencode_params`: `urllib.urlencode` + `requests.utils.unquote_unreserved` -/

/-- `urllib.parse.quote_plus` always-safe characters: ASCII letters, digits,
and `_ . - ~`. -/
def isAlwaysSafe (c : Char) : Bool :=
  (('A' ≤ c && c ≤ 'Z') || ('a' ≤ c && c ≤ 'z') || ('0' ≤ c && c ≤ '9')
    || c == '_' || c == '.' || c == '-' || c == '~')

/-- UTF-8 encoding of one character, as bytes. -/
def utf8Bytes (c : Char) : List Nat :=
  let n := c.toNat
  if n < 128 then [n]
  else if n < 2048 then [192 + n / 64, 128 + n % 64]
  else if n < 65536 then [224 + n / 4096, 128 + (n / 64) % 64, 128 + n % 64]
  else [240 + n / 262144, 128 + (n / 4096) % 64, 128 + (n / 64) % 64, 128 + n % 64]

/-- Uppercase hexadecimal digit, as used by `urllib.parse.quote`. -/
def hexDigitChar (n : Nat) : Char :=
  if n < 10 then Char.ofNat (48 + n) else Char.ofNat (55 + n)

/-- Percent-escape of one byte (`%XX`, uppercase). -/
def pctEncodeByte (b : Nat) : List Char :=
  ['%', hexDigitChar (b / 16), hexDigitChar (b % 16)]

/-- Concatenation of the images of `f`, avoiding version-dependent names. -/
def concatMap {α β : Type} (f : α → List β) : List α → List β
  | [] => []
  | a :: l => f a ++ concatMap f l

/-- `urllib.parse.quote_plus(s, safe="")`: safe characters kept, space
becomes `+`, every other character percent-encoded byte-by-byte (UTF-8). -/
def quotePlus (s : String) : String :=
  String.mk (concatMap
    (fun c =>
      if isAlwaysSafe c then [c]
      else if c == ' ' then ['+']
      else concatMap pctEncodeByte (utf8Bytes c))
    s.data)

/-- `urllib.urlencode` on a list of pairs (each key and value quoted with
`quote_plus`, joined by `=` and `&`). -/
def urlencode (params : ParamList) : String :=
  String.intercalate ("&")
    (params.map (fun kv => quotePlus kv.1 ++ ("=") ++ quotePlus kv.2))

def isHexDigitCh (c : Char) : Bool :=
  (('0' ≤ c && c ≤ '9') || ('A' ≤ c && c ≤ 'F') || ('a' ≤ c && c ≤ 'f'))

def hexVal (c : Char) : Nat :=
  if ('0' ≤ c && c ≤ '9') then c.toNat - 48
  else if ('A' ≤ c && c ≤ 'F') then c.toNat - 55
  else c.toNat - 87

/-- Unreserved bytes in the sense of `requests.utils` (RFC 3986): ASCII
letters, digits, and `- . _ ~`. -/
def isUnreservedByte (n : Nat) : Bool :=
  ((65 ≤ n && n ≤ 90) || (97 ≤ n && n ≤ 122) || (48 ≤ n && n ≤ 57)
    || n == 45 || n == 46 || n == 95 || n == 126)

/-- `requests.utils.unquote_unreserved`: un-escape `%XX` sequences whose byte
is unreserved, leave everything else alone.  (On a `%` not followed by two
hex digits `requests` raises `InvalidURL`; that case is unreachable here
because the input always comes from `urlencode`, whose escapes are
well-formed, and is modelled as leaving the `%` in place.) -/
def unquoteUnreservedChars : List Char → List Char
  | '%' :: h1 :: h2 :: rest =>
    if isHexDigitCh h1 && isHexDigitCh h2 then
      let n := hexVal h1 * 16 + hexVal h2
      if isUnreservedByte n then Char.ofNat n :: unquoteUnreservedChars rest
      else '%' :: h1 :: h2 :: unquoteUnreservedChars rest
    else '%' :: unquoteUnreservedChars (h1 :: h2 :: rest)
  | c :: rest => c :: unquoteUnreservedChars rest
  | [] => []

/-- `urlencode_params` of `client.py`:
`requests.utils.unquote_unreserved(urlencode(params))`
(the Python-3 `normalize_for_urlencode` is the identity). -/
def urlencode_params (params : ParamList) : String :=
  String.mk (unquoteUnreservedChars (urlencode params).data)

/-! ## Client configuration -/

/-- The authentication- and retry-relevant fields of `Client.__init__`
(the session, timeout tuple and `requests_kwargs` handling are not modelled;
no claim depends on them).  `retry_timeout` is in seconds. -/
structure ClientConfig where
  key : Option String
  client_id : Option String
  client_secret : Option String
  channel : Option String
  retry_timeout : ℚ
  queries_per_second : Nat
  retry_over_query_limit : Bool
deriving DecidableEq

/-! ## Response classifier: `Client._get_body` -/

/-- A raw HTTP response: status code and body.  `json = none` models a body
that is not valid JSON (`response.json()` raises); otherwise the body is the
JSON object's fields as an association list. -/
structure HttpResponse where
  status_code : Nat
  json : Option ParamList
deriving DecidableEq

/-- `Client._get_body` of `client.py`, with each `raise` turned into an
`Except.error`. -/
def _get_body (r : HttpResponse) : Except PyExc ParamList :=
  if r.status_code ≠ 200 then .error (.httpError r.status_code)
  else
    match r.json with
    | none => .error .jsonDecodeError
    | some body =>
      match lookupParam body ("status") with
      | none => .error (.keyError ("status"))
      | some api_status =>
        if api_status == ("OK") || api_status == ("ZERO_RESULTS") then .ok body
        else if api_status == ("OVER_QUERY_LIMIT") then
          .error (.overQueryLimit api_status (lookupParam body ("error_message")))
        else .error (.apiError api_status (lookupParam body ("error_message")))

/-! ## SHA-1, HMAC and base64 (the stdlib routines `sign_hmac` calls)

Bytes are `Nat` values `< 256`; 32-bit words are `Nat` values reduced
`% 2 ^ 32`.  SHA-1 follows FIPS 180, HMAC follows RFC 2104 with SHA-1's
64-byte block size, base64 follows RFC 4648 (with the `-`/`_` URL-safe
alphabet translation done exactly as `base64.urlsafe_b64encode/b64decode`
do it, by translating to and from the standard alphabet). -/

/-- Rotate a 32-bit word left by `n` (for `x < 2 ^ 32`, `n ≤ 32`). -/
def rotl32 (x n : Nat) : Nat :=
  (x * 2 ^ n) % 2 ^ 32 + x / 2 ^ (32 - n)

/-- Big-endian 4-byte groups to 32-bit words. -/
def toWordsBE : List Nat → List Nat
  | b0 :: b1 :: b2 :: b3 :: rest =>
    (b0 * 16777216 + b1 * 65536 + b2 * 256 + b3) :: toWordsBE rest
  | _ => []

/-- One 32-bit word to 4 big-endian bytes. -/
def wordToBytesBE (w : Nat) : List Nat :=
  [w / 16777216 % 256, w / 65536 % 256, w / 256 % 256, w % 256]

/-- SHA-1 message padding: `0x80`, zeros, then the 64-bit big-endian bit
length, to a multiple of 64 bytes. -/
def sha1Pad (msg : List Nat) : List Nat :=
  let len := msg.length
  let bitLen := len * 8
  msg ++ [128] ++ List.replicate ((55 + 64 - len % 64) % 64) 0 ++
    [bitLen / 2 ^ 56 % 256, bitLen / 2 ^ 48 % 256, bitLen / 2 ^ 40 % 256,
     bitLen / 2 ^ 32 % 256, bitLen / 2 ^ 24 % 256, bitLen / 2 ^ 16 % 256,
     bitLen / 2 ^ 8 % 256, bitLen % 256]

/-- Split into 64-byte chunks (the padded message's length is a multiple
of 64). -/
def chunks64 (l : List Nat) : List (List Nat) :=
  if h : l = [] then [] else l.take 64 :: chunks64 (l.drop 64)
termination_by l.length
decreasing_by
  simp only [List.length_drop]
  exact Nat.sub_lt (List.length_pos.mpr h) (by decide)

/-- Message-schedule extension step: append
`rotl1 (w[t-3] xor w[t-8] xor w[t-14] xor w[t-16])`. -/
def sha1ExtendStep (w : List Nat) : List Nat :=
  w ++ [rotl32 ((w.getD (w.length - 3) 0 ^^^ w.getD (w.length - 8) 0) ^^^
                (w.getD (w.length - 14) 0 ^^^ w.getD (w.length - 16) 0)) 1]

/-- Extend the 16 chunk words to the 80-word schedule. -/
def sha1Schedule (w16 : List Nat) : List Nat :=
  (List.range 64).foldl (fun w _ => sha1ExtendStep w) w16

/-- SHA-1 round function. -/
def sha1F (t b c d : Nat) : Nat :=
  if t < 20 then (b &&& c) ||| ((b ^^^ (2 ^ 32 - 1)) &&& d)
  else if t < 40 then (b ^^^ c) ^^^ d
  else if t < 60 then ((b &&& c) ||| (b &&& d)) ||| (c &&& d)
  else (b ^^^ c) ^^^ d

/-- SHA-1 round constants. -/
def sha1K (t : Nat) : Nat :=
  if t < 20 then 0x5A827999
  else if t < 40 then 0x6ED9EBA1
  else if t < 60 then 0x8F1BBCDC
  else 0xCA62C1D6

/-- SHA-1 compression of one 64-byte chunk. -/
def sha1Compress (h0 h1 h2 h3 h4 : Nat) (chunk : List Nat) :
    Nat × Nat × Nat × Nat × Nat :=
  let w := sha1Schedule (toWordsBE chunk)
  let r := (List.range 80).foldl
    (fun st t =>
      match st with
      | (a, b, c, d, e) =>
        ((rotl32 a 5 + sha1F t b c d + e + sha1K t + w.getD t 0) % 2 ^ 32,
         a, rotl32 b 30, c, d))
    (h0, h1, h2, h3, h4)
  match r with
  | (a, b, c, d, e) =>
    ((h0 + a) % 2 ^ 32, (h1 + b) % 2 ^ 32, (h2 + c) % 2 ^ 32,
     (h3 + d) % 2 ^ 32, (h4 + e) % 2 ^ 32)

/-- `hashlib.sha1(msg).digest()`: the 20-byte SHA-1 digest. -/
def sha1 (msg : List Nat) : List Nat :=
  let fin := (chunks64 (sha1Pad msg)).foldl
    (fun st chunk =>
      match st with
      | (a, b, c, d, e) => sha1Compress a b c d e chunk)
    (0x67452301, 0xEFCDAB89, 0x98BADCFE, 0x10325476, 0xC3D2E1F0)
  match fin with
  | (a, b, c, d, e) =>
    wordToBytesBE a ++ wordToBytesBE b ++ wordToBytesBE c ++
      wordToBytesBE d ++ wordToBytesBE e

/-- `hmac.new(key, msg, hashlib.sha1).digest()` (RFC 2104, block size 64). -/
def hmacSha1 (key msg : List Nat) : List Nat :=
  let k1 := if 64 < key.length then sha1 key else key
  let k2 := k1 ++ List.replicate (64 - k1.length) 0
  sha1 (k2.map (fun b => b ^^^ 0x5C) ++ sha1 (k2.map (fun b => b ^^^ 0x36) ++ msg))

/-- Standard base64 alphabet, index to byte. -/
def b64EncChar (n : Nat) : Nat :=
  if n < 26 then 65 + n
  else if n < 52 then 97 + (n - 26)
  else if n < 62 then 48 + (n - 52)
  else if n == 62 then 43
  else 47

/-- `base64.b64encode` on bytes. -/
def b64encodeBytes : List Nat → List Nat
  | b1 :: b2 :: b3 :: rest =>
    b64EncChar (b1 / 4) :: b64EncChar (b1 % 4 * 16 + b2 / 16) ::
      b64EncChar (b2 % 16 * 4 + b3 / 64) :: b64EncChar (b3 % 64) ::
      b64encodeBytes rest
  | [b1, b2] => [b64EncChar (b1 / 4), b64EncChar (b1 % 4 * 16 + b2 / 16),
                 b64EncChar (b2 % 16 * 4), 61]
  | [b1] => [b64EncChar (b1 / 4), b64EncChar (b1 % 4 * 16), 61, 61]
  | [] => []

/-- `base64.urlsafe_b64encode`: standard encoding, then `+ -> -`, `/ -> _`. -/
def urlsafeB64encode (bs : List Nat) : List Nat :=
  (b64encodeBytes bs).map (fun b => if b == 43 then 45 else if b == 47 then 95 else b)

/-- Standard base64 alphabet, byte to index. -/
def b64DecVal (b : Nat) : Option Nat :=
  if 65 ≤ b && b ≤ 90 then some (b - 65)
  else if 97 ≤ b && b ≤ 122 then some (b - 97 + 26)
  else if 48 ≤ b && b ≤ 57 then some (b - 48 + 52)
  else if b == 43 then some 62
  else if b == 47 then some 63
  else none

/-- `base64.b64decode` on bytes: strict 4-byte groups with `=` padding;
anything else raises `binascii.Error`. -/
def b64decodeBytes : List Nat → Except PyExc (List Nat)
  | [] => .ok []
  | c1 :: c2 :: c3 :: c4 :: rest =>
    match b64DecVal c1, b64DecVal c2 with
    | some v1, some v2 =>
      if c3 == 61 && c4 == 61 && rest.isEmpty then .ok [v1 * 4 + v2 / 16]
      else
        match b64DecVal c3 with
        | some v3 =>
          if c4 == 61 && rest.isEmpty then
            .ok [v1 * 4 + v2 / 16, v2 % 16 * 16 + v3 / 4]
          else
            match b64DecVal c4 with
            | some v4 =>
              (b64decodeBytes rest).map
                (fun tl => (v1 * 4 + v2 / 16) :: (v2 % 16 * 16 + v3 / 4) ::
                  (v3 % 4 * 64 + v4) :: tl)
            | none => .error .binasciiError
        | none => .error .binasciiError
    | _, _ => .error .binasciiError
  | _ => .error .binasciiError

/-- `base64.urlsafe_b64decode`: `- -> +`, `_ -> /`, then standard decoding. -/
def urlsafeB64decode (bs : List Nat) : Except PyExc (List Nat) :=
  b64decodeBytes (bs.map (fun b => if b == 45 then 43 else if b == 95 then 47 else b))

/-! ## `sign_hmac` -/

/-- Does the string contain only ASCII characters? -/
def isAsciiString (s : String) : Bool :=
  s.data.all (fun c => c.toNat < 128)

/-- The code points of a string as bytes (meaningful when ASCII). -/
def asciiBytes (s : String) : List Nat :=
  s.data.map Char.toNat

/-- Python `s.encode("ascii", "strict")`: the bytes, or `UnicodeEncodeError`
on any non-ASCII character. -/
def asciiEncode (s : String) : Except PyExc (List Nat) :=
  if isAsciiString s then .ok (asciiBytes s) else .error .encodingError

/-- Bytes back to a string (used for `out.decode("utf-8")` on the base64
output, which is always ASCII). -/
def bytesToString (bs : List Nat) : String :=
  String.mk (bs.map Char.ofNat)

/-- `sign_hmac` of `client.py`: encode the payload then the secret as strict
ASCII, base64-url-decode the secret into the HMAC key, HMAC-SHA1 the payload
bytes, base64-url-encode the digest, decode it to a string. -/
def sign_hmac (secret payload : String) : Except PyExc String := do
  let p ← asciiEncode payload
  let s ← asciiEncode secret
  let key ← urlsafeB64decode s
  .ok (bytesToString (urlsafeB64encode (hmacSha1 key p)))

/-! ## URL builder: `Client._generate_auth_url` -/

/-- `Client._generate_auth_url` of `client.py`.  `extra` models
`getattr(self, "_extra_params", None) or {}` (the per-call extra parameters
injected by `make_api_method`); each `raise` becomes an `Except.error`, and
an error from `sign_hmac` propagates. -/
def _generate_auth_url (cfg : ClientConfig) (path : String) (params : Params)
    (accepts_clientid : Bool) (extra : ParamList) : Except PyExc String :=
  let ps : ParamList :=
    match params with
    | .dict d => sortPairs (dictMerge extra d)
    | .list l => sortPairs extra ++ l
  if accepts_clientid && truthy cfg.client_id && truthy cfg.client_secret then
    let ps1 := if truthy cfg.channel then ps ++ [(("channel"), cfg.channel.getD (""))] else ps
    let ps2 := ps1 ++ [(("client"), cfg.client_id.getD (""))]
    let fullPath := path ++ ("?") ++ urlencode_params ps2
    (sign_hmac (cfg.client_secret.getD ("")) fullPath).map
      (fun sig => fullPath ++ ("&signature=") ++ sig)
  else if truthy cfg.key then
    .ok (path ++ ("?") ++ urlencode_params (ps ++ [(("key"), cfg.key.getD (""))]))
  else
    .error (.valueError ("Must provide API key for this API. It does not accept enterprise credentials."))

/-! ## Request engine: `Client._request`

The engine is driven by an environment: one `AttemptEnv` per loop iteration
(the Python code loops by tail recursion), recording that iteration's
`datetime.now()` reading at the deadline check, the `random.random() + 0.5`
jitter draw, what the network send does, the `time.time()` reading at the
rate-limit check and the `time.time()` reading appended to the window.
Observable actions are recorded as `Event`s in order. -/

/-- `_RETRIABLE_STATUSES = set([500, 503, 504])` membership. -/
def RETRIABLE_STATUSES (n : Nat) : Bool :=
  n == 500 || n == 503 || n == 504

/-- What `requests_method(...)` does on one iteration: raise
`requests.exceptions.Timeout`, raise some other exception, or return a
response. -/
inductive TransportOutcome where
  | reqTimeout
  | reqException
  | reqResponse (r : HttpResponse)
deriving DecidableEq

/-- The environment of one loop iteration (clock readings in seconds on the
same axis as `ClientConfig.retry_timeout`; `jitter` is the value of
`random.random() + 0.5`, so it lies in `[0.5, 1.5)`). -/
structure AttemptEnv where
  tCheck : ℚ
  jitter : ℚ
  outcome : TransportOutcome
  tThrottle : ℚ
  tAppend : ℚ
deriving DecidableEq

/-- Observable actions of the engine, in program order:
`backoffSleep base slept` is the retry pause (`slept = base * jitter`),
`buildAuth` a successful `_generate_auth_url`, `send` the network request,
`throttle s` the sliding-window rate-limit check (`s = some d` when it
slept for `d`), `windowAppend t` the `sent_times.append(time.time())`. -/
inductive Event where
  | backoffSleep (base : ℚ) (slept : ℚ)
  | buildAuth
  | send
  | throttle (slept : Option ℚ)
  | windowAppend (t : ℚ)
deriving DecidableEq

instance {ε α : Type} [DecidableEq ε] [DecidableEq α] : DecidableEq (Except ε α) := fun a b =>
  match a, b with
  | .ok x, .ok y =>
    if h : x = y then isTrue (by rw [h]) else isFalse (fun hh => h (by cases hh; rfl))
  | .error x, .error y =>
    if h : x = y then isTrue (by rw [h]) else isFalse (fun hh => h (by cases hh; rfl))
  | .ok _, .error _ => isFalse (fun hh => by cases hh)
  | .error _, .ok _ => isFalse (fun hh => by cases hh)

/-- Outcome of a terminating run: the ordered events, the returned body or
raised exception, and the final sliding window. -/
structure RunResult where
  events : List Event
  result : Except PyExc ParamList
  window : List ℚ
deriving DecidableEq

/-- The sliding-window rate-limit check of `_request`: when the deque is
nonempty and full, and less than one second has passed since its oldest
timestamp, sleep for the remainder (`time.sleep(1 - elapsed)`). -/
def throttleSlept (qps : Nat) (window : List ℚ) (t : ℚ) : Option ℚ :=
  if window ≠ [] ∧ window.length = qps then
    if t - window.headD 0 < 1 then some (1 - (t - window.headD 0)) else none
  else none

/-- `collections.deque(maxlen = cap).append`: append, evicting from the left
once the capacity is exceeded. -/
def dequeAppend (cap : Nat) (w : List ℚ) (t : ℚ) : List ℚ :=
  (w ++ [t]).drop (w.length + 1 - cap)

/-- `Client._request` of `client.py`, one constructor case per loop
iteration.  Program order inside an iteration follows the source: deadline
check, backoff sleep, `_generate_auth_url`, send, retriable-status check
(recursing immediately on 500/503/504), sliding-window rate-limit check,
`_get_body`, window append and return on success, re-raise or recurse on a
`_RetriableRequest`.  Returns `none` when the environment list runs out
before the run terminates. -/
def _request (cfg : ClientConfig) (url : String) (params : Params)
    (extra : ParamList) (accepts_clientid : Bool) :
    Option ℚ → Nat → List ℚ → List AttemptEnv → Option RunResult
  | _, _, _, [] => none
  | first_request_time, retry_counter, window, a :: rest =>
    let frt := first_request_time.getD a.tCheck
    if cfg.retry_timeout < a.tCheck - frt then
      some ⟨[], .error .timeout, window⟩
    else
      let backoffEvs : List Event :=
        if 0 < retry_counter then
          [.backoffSleep ((1 / 2) * (3 / 2) ^ (retry_counter - 1))
            ((1 / 2) * (3 / 2) ^ (retry_counter - 1) * a.jitter)]
        else []
      match _generate_auth_url cfg url params accepts_clientid extra with
      | .error e => some ⟨backoffEvs, .error e, window⟩
      | .ok _authed =>
        let evs1 := backoffEvs ++ [Event.buildAuth, Event.send]
        match a.outcome with
        | .reqTimeout => some ⟨evs1, .error .timeout, window⟩
        | .reqException => some ⟨evs1, .error .transportError, window⟩
        | .reqResponse r =>
          if RETRIABLE_STATUSES r.status_code then
            (_request cfg url params extra accepts_clientid (some frt)
                (retry_counter + 1) window rest).map
              (fun rr => ⟨evs1 ++ rr.events, rr.result, rr.window⟩)
          else
            let evs2 := evs1 ++
              [Event.throttle (throttleSlept cfg.queries_per_second window a.tThrottle)]
            match _get_body r with
            | .ok body =>
              some ⟨evs2 ++ [Event.windowAppend a.tAppend], .ok body,
                dequeAppend cfg.queries_per_second window a.tAppend⟩
            | .error e =>
              if isRetriableRequestExc e then
                if isOverQueryLimitExc e && !cfg.retry_over_query_limit then
                  some ⟨evs2, .error e, window⟩
                else
                  (_request cfg url params extra accepts_clientid (some frt)
                      (retry_counter + 1) window rest).map
                    (fun rr => ⟨evs2 ++ rr.events, rr.result, rr.window⟩)
              else some ⟨evs2, .error e, window⟩

/-! ## Event-trace helpers used to state the claims -/

/-- Is the event a network send? -/
def isSendEv : Event → Bool
  | .send => true
  | _ => false

/-- Is the event a rate-limit check? -/
def isThrottleEv : Event → Bool
  | .throttle _ => true
  | _ => false

/-- The backoff sleeps of a trace, as (base delay, slept amount) pairs. -/
def backoffEvents (evs : List Event) : List (ℚ × ℚ) :=
  evs.filterMap (fun e =>
    match e with
    | .backoffSleep b s => some (b, s)
    | _ => none)

/-- Does every send event have a rate-limit check immediately before it? -/
def everySendImmediatelyAfterThrottle (evs : List Event) : Bool :=
  (match evs with
   | .send :: _ => false
   | _ => true) && adjOk evs
where
  adjOk : List Event → Bool
    | a :: b :: rest => (!(isSendEv b) || isThrottleEv a) && adjOk (b :: rest)
    | _ => true

/-- Split a character list on a separator character. -/
def splitListOn (c : Char) : List Char → List (List Char)
  | [] => [[]]
  | x :: rest =>
    if x == c then [] :: splitListOn c rest
    else
      match splitListOn c rest with
      | [] => [[x]]
      | g :: gs => (x :: g) :: gs

/-- The parameter keys of a path-plus-query string, in order. -/
def queryParamKeys (url : String) : List String :=
  match splitListOn '?' url.data with
  | [_, q] => (splitListOn '&' q).map (fun kv => String.mk ((splitListOn '=' kv).headD []))
  | _ => []

/-- Is the list of strings sorted (lexicographically, by code point)? -/
def isSortedStrList : List String → Bool
  | a :: b :: rest => pyStrLe a b && isSortedStrList (b :: rest)
  | _ => true

/-! ## Claims -/

/-- C3: `_get_body`, applied to an HTTP status and JSON body, yields the
permanent HTTP error carrying the status for every status other than 200;
on 200 it returns the body when the body's `status` field is `OK` or
`ZERO_RESULTS`, raises the retriable over-query-limit error carrying the
optional `error_message` when the field is `OVER_QUERY_LIMIT`, raises
`ApiError(status, optional error_message)` for any other status value, and
fails with a parse error when the body is not valid JSON or has no `status`
field. -/
theorem get_body_classification (r : HttpResponse) :
    (r.status_code ≠ 200 → _get_body r = .error (.httpError r.status_code)) ∧
    (r.status_code = 200 → r.json = none →
      ∃ e, _get_body r = .error e ∧ isParseError e = true) ∧
    (∀ body, r.status_code = 200 → r.json = some body →
      (lookupParam body ("status") = none →
        ∃ e, _get_body r = .error e ∧ isParseError e = true) ∧
      (∀ st, lookupParam body ("status") = some st →
        ((st = ("OK") ∨ st = ("ZERO_RESULTS")) → _get_body r = .ok body) ∧
        (st = ("OVER_QUERY_LIMIT") →
          _get_body r =
            .error (.overQueryLimit st (lookupParam body ("error_message"))) ∧
          isRetriableRequestExc
            (.overQueryLimit st (lookupParam body ("error_message"))) = true) ∧
        (st ≠ ("OK") → st ≠ ("ZERO_RESULTS") → st ≠ ("OVER_QUERY_LIMIT") →
          _get_body r =
            .error (.apiError st (lookupParam body ("error_message")))))) := by
  obtain ⟨code, js⟩ := r
  refine ⟨fun h => by simp [_get_body, h], fun h hj => ?_, fun body h hj => ?_⟩
  · subst h; subst hj
    exact ⟨.jsonDecodeError, by simp [_get_body], rfl⟩
  · subst h; subst hj
    refine ⟨fun hs => ⟨.keyError ("status"), by simp [_get_body, hs], rfl⟩,
      fun st hst => ⟨fun hok => ?_, fun hoql => ?_, fun h1 h2 h3 => ?_⟩⟩
    · rcases hok with h | h <;> subst h <;> simp [_get_body, hst]
    · subst hoql
      exact ⟨by simp [_get_body, hst], rfl⟩
    · simp [_get_body, hst, h1, h2, h3]

/-- C3 witness: evaluation of the classifier at a non-200 response, at an
over-query-limit body, and at a body with no `status` field. -/
theorem get_body_classification_witness :
    _get_body ⟨404, none⟩ = .error (.httpError 404) ∧
    _get_body ⟨200, some [(("status"), ("OVER_QUERY_LIMIT"))]⟩ =
      .error (.overQueryLimit ("OVER_QUERY_LIMIT") none) ∧
    ∃ e, _get_body ⟨200, some []⟩ = .error e ∧ isParseError e = true :=
  ⟨(get_body_classification ⟨404, none⟩).1 (by decide),
   by
    have h := (((get_body_classification ⟨200, some [(("status"), ("OVER_QUERY_LIMIT"))]⟩).2.2
      [(("status"), ("OVER_QUERY_LIMIT"))] rfl rfl).2 ("OVER_QUERY_LIMIT") (by decide)).2.1 rfl
    simpa using h.1,
   ((get_body_classification ⟨200, some []⟩).2.2 [] rfl rfl).1 (by decide)⟩

/-- C6: the URL builder selects authentication in a fixed order: with
enterprise credentials configured and an endpoint accepting client-id auth
it appends `channel` (when configured) then `client`, encodes the query
string onto the path, signs that full path with the client secret and
appends `&signature=`; otherwise with an API key configured it appends
`key=<apiKey>` to the encoded parameter list; otherwise it fails with a
configuration `ValueError`. -/
theorem auth_url_selection (cfg : ClientConfig) (path : String) (d : ParamList)
    (extra : ParamList) (accepts_clientid : Bool) :
    _generate_auth_url cfg path (.dict d) accepts_clientid extra =
      (let ps := sortPairs (dictMerge extra d)
       if accepts_clientid && truthy cfg.client_id && truthy cfg.client_secret then
         let qs := ps ++
           ((if truthy cfg.channel then [(("channel"), cfg.channel.getD (""))] else []) ++
             [(("client"), cfg.client_id.getD (""))])
         let fullPath := path ++ ("?") ++ urlencode_params qs
         (sign_hmac (cfg.client_secret.getD ("")) fullPath).map
           (fun sig => fullPath ++ ("&signature=") ++ sig)
       else if truthy cfg.key then
         .ok (path ++ ("?") ++
           urlencode_params (ps ++ [(("key"), cfg.key.getD (""))]))
       else
         .error (.valueError
           ("Must provide API key for this API. It does not accept enterprise credentials."))) := by
  unfold _generate_auth_url
  by_cases hent : accepts_clientid && truthy cfg.client_id && truthy cfg.client_secret
  · by_cases hch : truthy cfg.channel <;> simp [hent, hch, List.append_assoc]
  · by_cases hk : truthy cfg.key <;> simp [hent, hk]

/-- C8: `sign_hmac` decodes the secret from URL-safe base64, computes an
HMAC-SHA1 over the ASCII bytes of the payload and returns the URL-safe
base64 encoding of the digest; it is a pure function, and it fails with the
encoding error whenever the payload or the secret contains a non-ASCII
character. -/
theorem sign_hmac_spec (secret payload : String) :
    sign_hmac secret payload =
      if isAsciiString payload && isAsciiString secret then
        (urlsafeB64decode (asciiBytes secret)).map
          (fun key => bytesToString (urlsafeB64encode (hmacSha1 key (asciiBytes payload))))
      else .error .encodingError := by
  unfold sign_hmac asciiEncode
  by_cases hp : isAsciiString payload <;> by_cases hs : isAsciiString secret <;>
    simp [hp, hs, bind, Except.bind]
  cases urlsafeB64decode (asciiBytes secret) <;> simp [Except.map]

/-- C10: every permanent HTTP-status error `HTTPError` is an instance of
`TransportError` (`exception.py` declares `HTTPError(TransportError)`), the
classifier produces it for every non-200 status, and the two error kinds of
the taxonomy are not disjoint. -/
theorem http_error_is_transport_error :
    (∀ code, isTransportErrorExc (PyExc.httpError code) = true) ∧
    (∀ r : HttpResponse, r.status_code ≠ 200 →
      _get_body r = .error (.httpError r.status_code) ∧
      isHTTPErrorExc (.httpError r.status_code) = true ∧
      isTransportErrorExc (.httpError r.status_code) = true) ∧
    (∃ e : PyExc, isHTTPErrorExc e = true ∧ isTransportErrorExc e = true) := by
  refine ⟨fun _ => rfl, fun r hr => ⟨by simp [_get_body, hr], rfl, rfl⟩,
    ⟨.httpError 0, rfl, rfl⟩⟩

/-- C10 witness: at status 500 the classifier's error is an `HTTPError` and
an instance of `TransportError`. -/
theorem http_error_is_transport_error_witness :
    _get_body ⟨500, none⟩ = .error (.httpError 500) ∧
    isTransportErrorExc (.httpError 500) = true :=
  ⟨(http_error_is_transport_error.2.1 ⟨500, none⟩ (by decide)).1,
   (http_error_is_transport_error.2.1 ⟨500, none⟩ (by decide)).2.2⟩

/-! ## C2: rate-limit throttle position -/

/-- C2 counterexample: in a complete run with one send (status 200, body
`OK`), the event trace is `[buildAuth, send, throttle, windowAppend]` — the
rate-limit check runs after the dispatch, not immediately before it, so
"for every actual network send the throttle is invoked immediately before
the HTTP request is dispatched" fails at this input. -/
theorem throttle_not_before_send_cex :
    (_request ⟨some ("AIzaX"), none, none, none, 60, 2, true⟩ ("/p") (Params.dict [])
        [] true none 0 [] [⟨0, 1, .reqResponse ⟨200, some [(("status"), ("OK"))]⟩, 0, 0⟩]).map
      (fun rr => (rr.events.countP isSendEv, everySendImmediatelyAfterThrottle rr.events))
      = some (1, false) := by
  have hs : _generate_auth_url ⟨some ("AIzaX"), none, none, none, 60, 2, true⟩ ("/p")
      (Params.dict []) true [] = .ok ("/p?key=AIzaX") := by decide
  have hb : _get_body ⟨200, some [(("status"), ("OK"))]⟩ = .ok [(("status"), ("OK"))] := by
    decide
  have hrun : _request ⟨some ("AIzaX"), none, none, none, 60, 2, true⟩ ("/p") (Params.dict [])
      [] true none 0 [] [⟨0, 1, .reqResponse ⟨200, some [(("status"), ("OK"))]⟩, 0, 0⟩] =
      some ⟨[Event.buildAuth, Event.send, Event.throttle none, Event.windowAppend 0],
            .ok [(("status"), ("OK"))], [0]⟩ := by
    simp only [_request]
    norm_num [hs, hb, RETRIABLE_STATUSES, throttleSlept, dequeAppend]
  rw [hrun]
  decide

/-- The backoff-sleep events of one iteration with counter `rc` and jitter
draw `j`: one sleep for `rc ≥ 1`, none for the first attempt. -/
def backoffEvs (rc : Nat) (j : ℚ) : List Event :=
  if 0 < rc then
    [.backoffSleep ((1 / 2) * (3 / 2) ^ (rc - 1)) ((1 / 2) * (3 / 2) ^ (rc - 1) * j)]
  else []

/-- C2 amended: for every send whose response status is outside the
retriable set and for every attempt counter, the rate-limit check runs
exactly once, after the response is received and before the body is
classified — whatever `_get_body` yields (body returned, parse error,
permanent HTTP or API error, or over-query-limit with either gate setting),
the iteration's events are the backoff sleeps, then build, send, and the
single throttle event, with the window append only on the success path;
sends whose response has a retriable HTTP status loop back without any
rate-limit check; when the window holds exactly capacity timestamps and
less than 1 second has elapsed since the oldest, the check sleeps for the
remaining fraction of the second. -/
theorem throttle_after_send_position (cfg : ClientConfig) (url : String)
    (params : Params) (extra : ParamList) (ac : Bool) (f : ℚ) (rc : Nat)
    (window : List ℚ) (a : AttemptEnv) (rest : List AttemptEnv) (r : HttpResponse)
    (hout : a.outcome = .reqResponse r)
    (htime : ¬ cfg.retry_timeout < a.tCheck - f)
    (hauth : isOkE (_generate_auth_url cfg url params ac extra) = true) :
    (RETRIABLE_STATUSES r.status_code = true →
      _request cfg url params extra ac (some f) rc window (a :: rest) =
        (_request cfg url params extra ac (some f) (rc + 1) window rest).map
          (fun rr => ⟨backoffEvs rc a.jitter ++ [Event.buildAuth, Event.send] ++ rr.events,
            rr.result, rr.window⟩)) ∧
    (RETRIABLE_STATUSES r.status_code = false →
      _request cfg url params extra ac (some f) rc window (a :: rest) =
        (match _get_body r with
         | .ok body =>
           some ⟨backoffEvs rc a.jitter ++
               [Event.buildAuth, Event.send,
                Event.throttle (throttleSlept cfg.queries_per_second window a.tThrottle),
                Event.windowAppend a.tAppend], .ok body,
             dequeAppend cfg.queries_per_second window a.tAppend⟩
         | .error e =>
           if isRetriableRequestExc e then
             if isOverQueryLimitExc e && !cfg.retry_over_query_limit then
               some ⟨backoffEvs rc a.jitter ++
                   [Event.buildAuth, Event.send,
                    Event.throttle (throttleSlept cfg.queries_per_second window a.tThrottle)],
                 .error e, window⟩
             else
               (_request cfg url params extra ac (some f) (rc + 1) window rest).map
                 (fun rr => ⟨backoffEvs rc a.jitter ++
                     [Event.buildAuth, Event.send,
                      Event.throttle (throttleSlept cfg.queries_per_second window a.tThrottle)]
                       ++ rr.events, rr.result, rr.window⟩)
           else
             some ⟨backoffEvs rc a.jitter ++
                 [Event.buildAuth, Event.send,
                  Event.throttle (throttleSlept cfg.queries_per_second window a.tThrottle)],
               .error e, window⟩)) ∧
    (∀ (w : List ℚ) (t : ℚ), w ≠ [] → w.length = cfg.queries_per_second →
      t - w.headD 0 < 1 →
      throttleSlept cfg.queries_per_second w t = some (1 - (t - w.headD 0))) := by
  obtain ⟨s, hs⟩ := (isOkE_iff _).mp hauth
  refine ⟨fun hretr => ?_, fun hnr => ?_, fun w t hne hlen hlt => ?_⟩
  · simp [_request, htime, hs, hout, hretr, backoffEvs]
  · cases hgb : _get_body r with
    | ok body => simp [_request, htime, hs, hout, hnr, hgb, backoffEvs]
    | error e =>
      by_cases h1 : isRetriableRequestExc e
      · by_cases h2 : isOverQueryLimitExc e && !cfg.retry_over_query_limit
        · simp [_request, htime, hs, hout, hnr, hgb, h1, h2, backoffEvs]
        · simp [_request, htime, hs, hout, hnr, hgb, h1, h2, backoffEvs]
      · simp [_request, htime, hs, hout, hnr, hgb, h1, backoffEvs]
  · simp only [throttleSlept]
    rw [if_pos (And.intro hne hlen), if_pos hlt]

/-- Concrete client for the C2 amended witness: capacity-1 window. -/
def cfgTW : ClientConfig := ⟨some ("AIzaX"), none, none, none, 60, 1, true⟩

/-- Concrete iteration environment for the C2 amended witness: 200/`OK`
response, rate-limit check at `t = 1/2` against a window whose oldest entry
is `0`. -/
def attTW : AttemptEnv := ⟨0, 1, .reqResponse ⟨200, some [(("status"), ("OK"))]⟩, 1/2, 3/2⟩

/-- C2 amended witness: with a full capacity-1 window `[0]` and the check at
`t = 1/2`, the run's events are build, send, then a throttle sleeping the
remaining `1/2` second, then the window append. -/
theorem throttle_after_send_position_witness :
    _request cfgTW ("/p") (Params.dict []) [] true (some 0) 0 [0] [attTW] =
      some ⟨[Event.buildAuth, Event.send, Event.throttle (some (1/2)),
             Event.windowAppend (3/2)], .ok [(("status"), ("OK"))], [(3/2 : ℚ)]⟩ := by
  have hb : _get_body ⟨200, some [(("status"), ("OK"))]⟩ = .ok [(("status"), ("OK"))] := by
    decide
  have h := (throttle_after_send_position cfgTW ("/p") (Params.dict []) [] true 0 0 [0] attTW []
    ⟨200, some [(("status"), ("OK"))]⟩ rfl (by norm_num [cfgTW, attTW]) (by decide)).2.1
    (by decide)
  rw [h]
  norm_num [hb, backoffEvs, cfgTW, attTW, throttleSlept, dequeAppend]

/-! ## C7: parameter merging and sorting -/

theorem lookupParam_append (A B : ParamList) (k : String) :
    lookupParam (A ++ B) k = ((lookupParam A k).orElse (fun _ => lookupParam B k)) := by
  induction A with
  | nil => simp [lookupParam, Option.orElse]
  | cons kv A ih =>
    by_cases h : kv.1 == k
    · simp [lookupParam, List.find?, h, Option.orElse]
    · simpa [lookupParam, List.find?, h, Option.orElse] using ih

theorem lookupParam_mapOverride (d p : ParamList) (k : String) :
    lookupParam (d.map (fun kv => (kv.1, (lookupParam p kv.1).getD kv.2))) k =
      (lookupParam d k).map (fun v => (lookupParam p k).getD v) := by
  induction d with
  | nil => rfl
  | cons kv d ih =>
    by_cases h : kv.1 == k
    · have hk : kv.1 = k := by simpa using h
      simp [lookupParam, List.find?, h, hk]
    · simpa [lookupParam, List.find?, h] using ih

theorem lookupParam_filterAbsent (d p : ParamList) (k : String) :
    lookupParam (p.filter (fun kv => (lookupParam d kv.1).isNone)) k =
      if (lookupParam d k).isNone then lookupParam p k else none := by
  induction p with
  | nil => simp [lookupParam]
  | cons kv p ih =>
    by_cases hd : (lookupParam d kv.1).isNone
    · rw [List.filter_cons_of_pos (by simpa using hd)]
      by_cases h : kv.1 == k
      · have hk : kv.1 = k := by simpa using h
        subst hk
        rw [if_pos hd]
        simp [lookupParam, List.find?]
      · simpa [lookupParam, List.find?, h] using ih
    · rw [List.filter_cons_of_neg (by simpa using hd)]
      by_cases h : kv.1 == k
      · have hk : kv.1 = k := by simpa using h
        subst hk
        simp only [ih]
        rw [if_neg hd, if_neg hd]
      · rw [ih]
        by_cases hdk : (lookupParam d k).isNone
        · rw [if_pos hdk, if_pos hdk]
          simp [lookupParam, List.find?, h]
        · rw [if_neg hdk, if_neg hdk]

/-- Looking a key up in `dict(d, **p)` gives `p`'s value when present, else
`d`'s: call-specific values override defaults on key collision. -/
theorem dictMerge_override (d p : ParamList) (k : String) :
    lookupParam (dictMerge d p) k =
      ((lookupParam p k).orElse (fun _ => lookupParam d k)) := by
  rw [dictMerge, lookupParam_append, lookupParam_mapOverride, lookupParam_filterAbsent]
  cases hd : lookupParam d k <;> cases hp : lookupParam p k <;>
    simp [hd, hp, Option.orElse]

/-- C7 counterexample: with parameter `z=1` and an API key, the built query
string is `z=1&key=AIzaX`, whose keys `["z", "key"]` are not sorted — the
claim that the built query string has its parameters sorted
lexicographically by key fails at this input, because the authentication
parameter is appended after sorting. -/
theorem query_params_not_sorted_cex :
    (_generate_auth_url ⟨some ("AIzaX"), none, none, none, 60, 2, true⟩ ("/p")
        (.dict [(("z"), ("1"))]) true []).map
      (fun u => (queryParamKeys u, isSortedStrList (queryParamKeys u)))
      = .ok ([("z"), ("key")], false) := by decide

/-- C7 amended: call-specific values override client-level defaults on key
collision; the merged caller/default parameters are sorted lexicographically
by key, and the builder appends the authentication parameters after that
sorted list — `key` in the API-key branch, `channel` (when configured) then
`client` in the enterprise branch, with `&signature=` appended after the
encoded query — so the whole query string is sorted only up to the trailing
authentication parameters; building is deterministic (the builder is a pure
function of its inputs). -/
theorem merge_override_sorted_before_auth (cfg : ClientConfig) (path : String)
    (params extra : ParamList) (ac : Bool) :
    (∀ k, lookupParam (dictMerge extra params) k =
      ((lookupParam params k).orElse (fun _ => lookupParam extra k))) ∧
    List.Sorted pairLe (sortPairs (dictMerge extra params)) ∧
    ((ac && truthy cfg.client_id && truthy cfg.client_secret) = false →
      truthy cfg.key = true →
      _generate_auth_url cfg path (.dict params) ac extra =
        .ok (path ++ ("?") ++ urlencode_params
          (sortPairs (dictMerge extra params) ++ [(("key"), cfg.key.getD (""))]))) ∧
    ((ac && truthy cfg.client_id && truthy cfg.client_secret) = true →
      _generate_auth_url cfg path (.dict params) ac extra =
        (let qs := sortPairs (dictMerge extra params) ++
           ((if truthy cfg.channel then [(("channel"), cfg.channel.getD (""))] else []) ++
             [(("client"), cfg.client_id.getD (""))])
         let fullPath := path ++ ("?") ++ urlencode_params qs
         (sign_hmac (cfg.client_secret.getD ("")) fullPath).map
           (fun sig => fullPath ++ ("&signature=") ++ sig))) := by
  refine ⟨fun k => dictMerge_override extra params k, ?_, fun h1 h2 => ?_, fun hent => ?_⟩
  · exact List.sorted_insertionSort pairLe _
  · simp [_generate_auth_url, h1, h2]
  · by_cases hch : truthy cfg.channel <;>
      simp [_generate_auth_url, hent, hch, List.append_assoc]

/-- C7 amended witness: the key-authenticated URL for parameter `z=1` is the
sorted merged parameters followed by the `key` parameter. -/
theorem merge_override_sorted_before_auth_witness :
    _generate_auth_url ⟨some ("AIzaX"), none, none, none, 60, 2, true⟩ ("/p")
        (.dict [(("z"), ("1"))]) true [] =
      .ok (("/p") ++ ("?") ++ urlencode_params
        (sortPairs (dictMerge [] [(("z"), ("1"))]) ++ [(("key"), ("AIzaX"))])) := by
  have h := (merge_override_sorted_before_auth ⟨some ("AIzaX"), none, none, none, 60, 2, true⟩
    ("/p") [(("z"), ("1"))] [] true).2.2.1 (by decide) (by decide)
  simpa using h

/-! ## C1: deadline check and termination under permanent 503 -/

/-- Does the iteration's send return an HTTP 503 response? -/
def is503Attempt (a : AttemptEnv) : Bool :=
  match a.outcome with
  | .reqResponse r => r.status_code == 503
  | _ => false

/-- C1: the elapsed time since the first attempt is compared against the
retry deadline at the top of every iteration, and once it strictly exceeds
`retry_timeout` the engine fails permanently with the timeout error
regardless of the attempt counter `rc`; hence against a remote that always
returns 503, as soon as some iteration starts after the deadline the run
terminates with the timeout error, and the engine performs exactly one send
per iteration that started within the deadline (so it overshoots the
deadline by at most the one request in flight when the deadline expires). -/
theorem always_503_times_out (cfg : ClientConfig) (url : String) (params : Params)
    (extra : ParamList) (ac : Bool) (f : ℚ) (window : List ℚ)
    (trace : List AttemptEnv) (rc : Nat)
    (hauth : isOkE (_generate_auth_url cfg url params ac extra) = true)
    (h503 : trace.all is503Attempt = true)
    (hex : ∃ a ∈ trace, cfg.retry_timeout < a.tCheck - f) :
    ∃ rr, _request cfg url params extra ac (some f) rc window trace = some rr ∧
      rr.result = .error .timeout ∧
      rr.events.countP isSendEv =
        (trace.takeWhile (fun a => decide (a.tCheck - f ≤ cfg.retry_timeout))).length := by
  obtain ⟨s, hs⟩ := (isOkE_iff _).mp hauth
  induction trace generalizing rc with
  | nil => simp at hex
  | cons a rest ih =>
    rw [List.all_cons, Bool.and_eq_true] at h503
    obtain ⟨ha, hrest⟩ := h503
    by_cases hd : cfg.retry_timeout < a.tCheck - f
    · refine ⟨⟨[], .error .timeout, window⟩, ?_, rfl, ?_⟩
      · simp [_request, hd]
      · rw [List.takeWhile_cons, decide_eq_false (not_le.mpr hd)]
        rfl
    · obtain ⟨r, hout, hstatus⟩ : ∃ r, a.outcome = TransportOutcome.reqResponse r ∧
          r.status_code = 503 := by
        unfold is503Attempt at ha
        cases hao : a.outcome with
        | reqResponse r =>
          rw [hao] at ha
          exact ⟨r, rfl, by simpa using ha⟩
        | reqTimeout => rw [hao] at ha; cases ha
        | reqException => rw [hao] at ha; cases ha
      have hex' : ∃ x ∈ rest, cfg.retry_timeout < x.tCheck - f := by
        obtain ⟨x, hx, hxe⟩ := hex
        rcases List.mem_cons.mp hx with h | h
        · exact absurd (h ▸ hxe) hd
        · exact ⟨x, h, hxe⟩
      obtain ⟨rr', hrun', hres', hcnt'⟩ := ih (rc + 1) hrest hex'
      refine ⟨⟨(if 0 < rc then
          [Event.backoffSleep ((1 / 2) * (3 / 2) ^ (rc - 1))
            ((1 / 2) * (3 / 2) ^ (rc - 1) * a.jitter)] else []) ++
          [Event.buildAuth, Event.send] ++ rr'.events, rr'.result, rr'.window⟩, ?_, hres', ?_⟩
      · simp [_request, hd, hs, hout, hstatus, RETRIABLE_STATUSES, hrun']
      · rw [List.takeWhile_cons, decide_eq_true (not_lt.mp hd)]
        simp only [List.countP_append, hcnt', List.length_cons]
        have hz : (if 0 < rc then
            [Event.backoffSleep ((1 / 2) * (3 / 2) ^ (rc - 1))
              ((1 / 2) * (3 / 2) ^ (rc - 1) * a.jitter)] else []).countP isSendEv = 0 := by
          split <;> rfl
        rw [hz]
        simp [List.countP_cons, isSendEv, Nat.add_comm]

/-- Concrete client for the C1 witness: 1-second retry deadline. -/
def cfgW1 : ClientConfig := ⟨some ("AIzaX"), none, none, none, 1, 2, true⟩

/-- C1 witness attempts: 503 responses at `t = 0` and `t = 2`. -/
def attW1a : AttemptEnv := ⟨0, 1, .reqResponse ⟨503, none⟩, 0, 0⟩

def attW1b : AttemptEnv := ⟨2, 1, .reqResponse ⟨503, none⟩, 2, 2⟩

/-- C1 witness: with a 1-second deadline and 503 responses at `t = 0` and
`t = 2`, the run terminates with the timeout error. -/
theorem always_503_times_out_witness :
    ((_request cfgW1 ("/p") (Params.dict []) [] true (some 0) 0 [] [attW1a, attW1b]).getD
      ⟨[], .error .transportError, []⟩).result = .error .timeout := by
  obtain ⟨rr, hrun, hres, _⟩ := always_503_times_out cfgW1 ("/p") (Params.dict []) [] true 0 []
    [attW1a, attW1b] 0 (by decide) (by decide)
    ⟨attW1b, by simp, by norm_num [cfgW1, attW1b]⟩
  rw [hrun]
  exact hres

/-! ## C4: exponential jittered backoff -/

/-- C4: retry iteration `i ≥ 1` sleeps `0.5 * 1.5 ^ (i - 1)` seconds
multiplied by the iteration's jitter draw (the first attempt, `i = 0`,
incurs no delay); when the remote returns 500 three times and then 200 with
an `OK` body, the engine returns the final body after exactly 3 backoff
sleeps with strictly increasing base delays `0.5`, `0.75`, `1.125`. -/
theorem backoff_three_500_then_ok (cfg : ClientConfig) (url : String) (params : Params)
    (extra : ParamList) (ac : Bool) (window : List ℚ) (body : ParamList)
    (t1 t2 t3 t4 j1 j2 j3 j4 th1 th2 th3 th4 ta1 ta2 ta3 ta4 : ℚ)
    (hst : lookupParam body ("status") = some ("OK"))
    (hauth : isOkE (_generate_auth_url cfg url params ac extra) = true)
    (h0 : 0 ≤ cfg.retry_timeout)
    (h2 : ¬ cfg.retry_timeout < t2 - t1) (h3 : ¬ cfg.retry_timeout < t3 - t1)
    (h4 : ¬ cfg.retry_timeout < t4 - t1) :
    ∃ rr, _request cfg url params extra ac none 0 window
        [⟨t1, j1, .reqResponse ⟨500, none⟩, th1, ta1⟩,
         ⟨t2, j2, .reqResponse ⟨500, none⟩, th2, ta2⟩,
         ⟨t3, j3, .reqResponse ⟨500, none⟩, th3, ta3⟩,
         ⟨t4, j4, .reqResponse ⟨200, some body⟩, th4, ta4⟩] = some rr ∧
      rr.result = .ok body ∧
      backoffEvents rr.events =
        [((1 : ℚ) / 2, 1 / 2 * j2), (3 / 4, 3 / 4 * j3), (9 / 8, 9 / 8 * j4)] ∧
      ((1 : ℚ) / 2 < 3 / 4 ∧ (3 : ℚ) / 4 < 9 / 8) := by
  obtain ⟨s, hs⟩ := (isOkE_iff _).mp hauth
  have h1 : ¬ cfg.retry_timeout < t1 - t1 := by
    rw [sub_self]
    exact not_lt.mpr h0
  have hb : _get_body ⟨200, some body⟩ = .ok body := by simp [_get_body, hst]
  have hrun : _request cfg url params extra ac none 0 window
      [⟨t1, j1, .reqResponse ⟨500, none⟩, th1, ta1⟩,
       ⟨t2, j2, .reqResponse ⟨500, none⟩, th2, ta2⟩,
       ⟨t3, j3, .reqResponse ⟨500, none⟩, th3, ta3⟩,
       ⟨t4, j4, .reqResponse ⟨200, some body⟩, th4, ta4⟩] =
      some ⟨[Event.buildAuth, Event.send,
             Event.backoffSleep (1 / 2) (1 / 2 * j2), Event.buildAuth, Event.send,
             Event.backoffSleep (3 / 4) (3 / 4 * j3), Event.buildAuth, Event.send,
             Event.backoffSleep (9 / 8) (9 / 8 * j4), Event.buildAuth, Event.send,
             Event.throttle (throttleSlept cfg.queries_per_second window th4),
             Event.windowAppend ta4], .ok body,
            dequeAppend cfg.queries_per_second window ta4⟩ := by
    simp only [_request, Option.getD]
    rw [if_neg h1]
    norm_num [hs, hb, RETRIABLE_STATUSES, h1, h2, h3, h4]
  exact ⟨_, hrun, rfl, by simp [backoffEvents], by norm_num⟩

/-- Concrete client for the C4 witness. -/
def cfgW4 : ClientConfig := ⟨some ("AIzaX"), none, none, none, 60, 2, true⟩

/-- C4 witness: 500 at `t = 0, 1, 2`, then 200/`OK` at `t = 3` (all jitter
draws equal to 1): the body is returned and the backoff sleeps have bases
`1/2`, `3/4`, `9/8`. -/
theorem backoff_three_500_then_ok_witness :
    (_request cfgW4 ("/p") (Params.dict []) [] true none 0 []
        [⟨0, 1, .reqResponse ⟨500, none⟩, 0, 0⟩,
         ⟨1, 1, .reqResponse ⟨500, none⟩, 1, 1⟩,
         ⟨2, 1, .reqResponse ⟨500, none⟩, 2, 2⟩,
         ⟨3, 1, .reqResponse ⟨200, some [(("status"), ("OK"))]⟩, 3, 3⟩]).map
      (fun rr => (rr.result, backoffEvents rr.events)) =
      some (.ok [(("status"), ("OK"))],
        [((1 : ℚ) / 2, 1 / 2 * 1), (3 / 4, 3 / 4 * 1), (9 / 8, 9 / 8 * 1)]) := by
  obtain ⟨rr, hrun, hres, hbo, _⟩ := backoff_three_500_then_ok cfgW4 ("/p") (Params.dict [])
    [] true [] [(("status"), ("OK"))] 0 1 2 3 1 1 1 1 0 1 2 3 0 1 2 3
    (by decide) (by decide) (by decide) (by norm_num [cfgW4]) (by norm_num [cfgW4])
    (by norm_num [cfgW4])
  rw [hrun]
  simp [hres, hbo]

/-! ## C5: over-query-limit retry gating -/

/-- C5: when a response classifies as over-query-limit, the engine retries
(loops back with an incremented attempt counter) if and only if
`retry_over_query_limit` is set; when it is false, the engine immediately
raises the error — which is an `ApiError` instance — with no further
attempt. -/
theorem over_query_limit_retry_iff_configured (cfg : ClientConfig) (url : String)
    (params : Params) (extra : ParamList) (ac : Bool) (f : ℚ) (window : List ℚ)
    (a : AttemptEnv) (rest : List AttemptEnv) (body : ParamList)
    (hout : a.outcome = .reqResponse ⟨200, some body⟩)
    (hst : lookupParam body ("status") = some ("OVER_QUERY_LIMIT"))
    (htime : ¬ cfg.retry_timeout < a.tCheck - f)
    (hauth : isOkE (_generate_auth_url cfg url params ac extra) = true) :
    (cfg.retry_over_query_limit = false →
      _request cfg url params extra ac (some f) 0 window (a :: rest) =
        some ⟨[Event.buildAuth, Event.send,
               Event.throttle (throttleSlept cfg.queries_per_second window a.tThrottle)],
              .error (.overQueryLimit ("OVER_QUERY_LIMIT")
                (lookupParam body ("error_message"))), window⟩ ∧
      isApiError (.overQueryLimit ("OVER_QUERY_LIMIT")
        (lookupParam body ("error_message"))) = true) ∧
    (cfg.retry_over_query_limit = true →
      _request cfg url params extra ac (some f) 0 window (a :: rest) =
        (_request cfg url params extra ac (some f) 1 window rest).map
          (fun rr => ⟨[Event.buildAuth, Event.send,
                       Event.throttle (throttleSlept cfg.queries_per_second window a.tThrottle)]
                        ++ rr.events, rr.result, rr.window⟩)) := by
  obtain ⟨s, hs⟩ := (isOkE_iff _).mp hauth
  have hb : _get_body ⟨200, some body⟩ =
      .error (.overQueryLimit ("OVER_QUERY_LIMIT") (lookupParam body ("error_message"))) := by
    simp [_get_body, hst]
  refine ⟨fun hr => ⟨?_, rfl⟩, fun hr => ?_⟩
  · simp [_request, htime, hs, hout, hb, RETRIABLE_STATUSES, hr,
      isRetriableRequestExc, isOverQueryLimitExc]
  · simp [_request, htime, hs, hout, hb, RETRIABLE_STATUSES, hr,
      isRetriableRequestExc, isOverQueryLimitExc]

/-- Concrete client for the C5 witness: retry on over-quota disabled. -/
def cfgW5 : ClientConfig := ⟨some ("AIzaX"), none, none, none, 60, 2, false⟩

/-- C5 witness body: `OVER_QUERY_LIMIT` with an error message. -/
def oqlBodyW : ParamList := [(("status"), ("OVER_QUERY_LIMIT")), (("error_message"), ("quota"))]

/-- C5 witness attempt: a 200 response carrying the over-quota body. -/
def attW5 : AttemptEnv := ⟨0, 1, .reqResponse ⟨200, some oqlBodyW⟩, 0, 0⟩

/-- C5 witness: with `retry_over_query_limit = false` the engine raises the
over-query-limit error after the single send. -/
theorem over_query_limit_retry_iff_configured_witness :
    _request cfgW5 ("/p") (Params.dict []) [] true (some 0) 0 [] [attW5] =
      some ⟨[Event.buildAuth, Event.send, Event.throttle none],
            .error (.overQueryLimit ("OVER_QUERY_LIMIT") (some ("quota"))), []⟩ := by
  have h := ((over_query_limit_retry_iff_configured cfgW5 ("/p") (Params.dict []) [] true 0 []
    attW5 [] oqlBodyW rfl (by decide) (by norm_num [cfgW5, attW5]) (by decide)).1 rfl).1
  rw [h]
  decide

/-! ## C9: sliding-window invariant -/

theorem dequeAppend_length_le (cap : Nat) (w : List ℚ) (t : ℚ) :
    (dequeAppend cap w t).length ≤ cap := by
  simp [dequeAppend]
  omega

theorem dequeAppend_full (cap : Nat) (w : List ℚ) (t : ℚ) (hlen : w.length = cap)
    (hpos : 0 < cap) : dequeAppend cap w t = w.tail ++ [t] := by
  cases w with
  | nil =>
    simp only [List.length_nil] at hlen
    omega
  | cons x xs =>
    have hidx : (x :: xs).length + 1 - cap = 1 := by
      rw [hlen]
      omega
    rw [dequeAppend, hidx]
    simp

/-- C9: the sliding window never grows beyond `queries_per_second` entries —
every terminating run starting from a window within capacity ends with a
window within capacity; a timestamp is appended (via the capacity-bounded
`dequeAppend`) exactly once and only when the run returns a body (the
success path), while every run that raises leaves the window untouched; and
appending to a full window evicts the oldest entry (ring-buffer
semantics). -/
theorem window_invariant (cfg : ClientConfig) (url : String) (params : Params)
    (extra : ParamList) (ac : Bool) (frt : Option ℚ) (rc : Nat) (window : List ℚ)
    (trace : List AttemptEnv)
    (hw : window.length ≤ cfg.queries_per_second) :
    (∀ rr, _request cfg url params extra ac frt rc window trace = some rr →
      rr.window.length ≤ cfg.queries_per_second ∧
      ((∃ b, rr.result = .ok b) →
        ∃ t, rr.window = dequeAppend cfg.queries_per_second window t) ∧
      ((∃ e, rr.result = .error e) → rr.window = window)) ∧
    (∀ (w : List ℚ) (t : ℚ), w.length = cfg.queries_per_second →
      0 < cfg.queries_per_second →
      dequeAppend cfg.queries_per_second w t = w.tail ++ [t]) := by
  refine ⟨?_, fun w t hl hp => dequeAppend_full _ _ _ hl hp⟩
  induction trace generalizing frt rc with
  | nil => intro rr h; cases h
  | cons a rest ih =>
    intro rr h
    simp only [_request] at h
    split at h
    · obtain rfl := Option.some.inj h
      exact ⟨hw, by rintro ⟨b, hb⟩; simp at hb, fun _ => rfl⟩
    · split at h
      · obtain rfl := Option.some.inj h
        exact ⟨hw, by rintro ⟨b, hb⟩; simp at hb, fun _ => rfl⟩
      · split at h
        · obtain rfl := Option.some.inj h
          exact ⟨hw, by rintro ⟨b, hb⟩; simp at hb, fun _ => rfl⟩
        · obtain rfl := Option.some.inj h
          exact ⟨hw, by rintro ⟨b, hb⟩; simp at hb, fun _ => rfl⟩
        · split at h
          · rw [Option.map_eq_some'] at h
            obtain ⟨rr', hrr', rfl⟩ := h
            exact ih _ _ rr' hrr'
          · split at h
            · obtain rfl := Option.some.inj h
              exact ⟨dequeAppend_length_le _ _ _, fun _ => ⟨a.tAppend, rfl⟩,
                by rintro ⟨e, he⟩; simp at he⟩
            · split at h
              · split at h
                · obtain rfl := Option.some.inj h
                  exact ⟨hw, by rintro ⟨b, hb⟩; simp at hb, fun _ => rfl⟩
                · rw [Option.map_eq_some'] at h
                  obtain ⟨rr', hrr', rfl⟩ := h
                  exact ih _ _ rr' hrr'
              · obtain rfl := Option.some.inj h
                exact ⟨hw, by rintro ⟨b, hb⟩; simp at hb, fun _ => rfl⟩

/-- Concrete client for the C9 witness. -/
def cfgW9 : ClientConfig := ⟨some ("AIzaX"), none, none, none, 60, 2, true⟩

/-- C9 witness attempt: a successful 200/`OK` iteration appending `t = 7`. -/
def attW9 : AttemptEnv := ⟨0, 1, .reqResponse ⟨200, some [(("status"), ("OK"))]⟩, 0, 7⟩

/-- C9 witness: the final window of a concrete successful run stays within
the configured capacity. -/
theorem window_invariant_witness :
    ((_request cfgW9 ("/p") (Params.dict []) [] true none 0 [] [attW9]).getD
      ⟨[], .error .timeout, []⟩).window.length ≤ 2 := by
  have h9 := (window_invariant cfgW9 ("/p") (Params.dict []) [] true none 0 [] [attW9]
    (by decide)).1
  cases hrun : _request cfgW9 ("/p") (Params.dict []) [] true none 0 [] [attW9] with
  | none => simp [hrun]
  | some rr =>
    exact (h9 rr hrun).1

end Gmaps
